import Mathlib

/-
Verification of the mimic library: browser TLS / HTTP2 / header fingerprint
profiles.  The Go sources are embedded shallowly: pure Go functions become
Lean functions, the in-place mutation of an http.Transport becomes explicit
state passing, and fallible Go functions return Except.  External
collaborators (utls, fhttp/http2) are modelled through their contracts: every
ClientHelloID appearing in the registries resolves (utls guarantees this for
the pinned identifiers), and http2.ConfigureTransports succeeds (it is
documented to be safe even when HTTP2 is already enabled).
-/

namespace Mimic

deriving instance DecidableEq for Except

/-- Platform represents the operating system platform (part_000). -/
inductive Platform where
  | PlatformWindows
  | PlatformMac
  | PlatformLinux
  | PlatformIOS
  | PlatformIPadOS
  deriving DecidableEq, Repr

export Platform (PlatformWindows PlatformMac PlatformLinux PlatformIOS PlatformIPadOS)

/-- Brand represents the browser brand for Chromium-based browsers (part_000). -/
inductive Brand where
  | BrandChrome
  | BrandBrave
  | BrandEdge
  deriving DecidableEq, Repr

export Brand (BrandChrome BrandBrave BrandEdge)

/-- The string value of a Brand constant (part_000: BrandChrome = "Google Chrome", ...). -/
def brandName : Brand → String
  | BrandChrome => "Google Chrome"
  | BrandBrave => "Brave"
  | BrandEdge => "Microsoft Edge"

/-- Error identities of the library.  Go wraps sentinel errors with context via
fmt.Errorf and callers test them with errors.Is; the embedding keeps only the
identity of the wrapped sentinel.  parseError stands for the strconv.Atoi
failure wrapped by parseMajorVersion, http2EnableError for a failure of
http2.ConfigureTransports. -/
inductive MimicError where
  | parseError
  | unsupportedVersion
  | unsupportedPlatform
  | tlsResolveError
  | http2EnableError
  deriving DecidableEq, Repr

/-- HTTP/2 SETTINGS identifiers used by the three registries
(fhttp/http2 constants plus the raw 0x8 cast in the safari file). -/
inductive SettingID where
  | SettingHeaderTableSize
  | SettingEnablePush
  | SettingMaxConcurrentStreams
  | SettingInitialWindowSize
  | SettingMaxFrameSize
  | SettingMaxHeaderListSize
  | SettingEnableConnectProtocol
  deriving DecidableEq, Repr

export SettingID (SettingHeaderTableSize SettingEnablePush SettingMaxConcurrentStreams
  SettingInitialWindowSize SettingMaxFrameSize SettingMaxHeaderListSize
  SettingEnableConnectProtocol)

/-- One http2.Setting entry: identifier and value. -/
abbrev Setting := SettingID × Nat

/-- http2.PriorityParam: priority parameters sent in HEADERS frames. -/
structure PriorityParam where
  StreamDep : Nat
  Exclusive : Bool
  Weight : Nat
  deriving DecidableEq, Repr

/-- HTTP2Options holds HTTP/2 configuration for a browser fingerprint
(part_000).  Fields a Go struct literal leaves unset take the Go zero value
(0 resp. none). -/
structure HTTP2Options where
  Settings : List Setting
  PseudoHeaderOrder : List String
  MaxHeaderListSize : Nat
  InitialWindowSize : Nat
  HeaderTableSize : Nat
  ConnectionFlow : Nat
  HeaderPriority : Option PriorityParam
  deriving DecidableEq, Repr

/-- The utls ClientHelloID values reachable from the three registries. -/
inductive ClientHelloID where
  | HelloChrome_100
  | HelloChrome_102
  | HelloChrome_106_Shuffle
  | HelloChrome_112_PSK_Shuf
  | HelloChrome_114_Padding_PSK_Shuf
  | HelloChrome_115_PQ
  | HelloChrome_120
  | HelloChrome_131
  | HelloChrome_133
  | HelloFirefox_55
  | HelloFirefox_56
  | HelloFirefox_63
  | HelloFirefox_65
  | HelloFirefox_99
  | HelloFirefox_102
  | HelloFirefox_105
  | HelloFirefox_120
  | HelloSafari_16_0
  | HelloIOS_14
  deriving DecidableEq, Repr

export ClientHelloID (HelloChrome_100 HelloChrome_102 HelloChrome_106_Shuffle
  HelloChrome_112_PSK_Shuf HelloChrome_114_Padding_PSK_Shuf HelloChrome_115_PQ
  HelloChrome_120 HelloChrome_131 HelloChrome_133 HelloFirefox_55 HelloFirefox_56
  HelloFirefox_63 HelloFirefox_65 HelloFirefox_99 HelloFirefox_102 HelloFirefox_105
  HelloFirefox_120 HelloSafari_16_0 HelloIOS_14)

/-- Go strconv.Atoi on the embedded inputs: an optional single sign followed by
at least one ASCII digit, with the int64 range check of ParseInt (out of range
values yield ErrRange, which Atoi reports as a failure). -/
def goAtoi (s : String) : Option Int :=
  match s.toList with
  | [] => none
  | c :: rest =>
    let signed : Bool × List Char :=
      if c = Char.ofNat 43 then (false, rest)
      else if c = Char.ofNat 45 then (true, rest)
      else (false, c :: rest)
    match signed with
    | (neg, digits) =>
      if digits = [] then none
      else if digits.all Char.isDigit then
        let n : Nat := digits.foldl (fun a d => a * 10 + (d.toNat - 48)) 0
        let v : Int := if neg then -(n : Int) else (n : Int)
        if v < -(9223372036854775808 : Int) then none
        else if (9223372036854775807 : Int) < v then none
        else some v
      else none

/-- The characters before the first dot (strings.SplitN(s, ".", 2) first
element), written as structural recursion so that it reduces inside the
kernel. -/
def takeUntilDot : List Char → List Char
  | [] => []
  | c :: cs => if c = Char.ofNat 46 then [] else c :: takeUntilDot cs

/-- The major component of a dotted version string: everything before the
first dot, or the whole string when it has no dot. -/
def majorPart (version : String) : String :=
  ⟨takeUntilDot version.toList⟩

/-- parseMajorVersion (part_000): splits the version at the first dot and
parses the prefix with strconv.Atoi, returning both the raw prefix and the
parsed number. -/
def parseMajorVersion (version : String) : Except MimicError (String × Int) :=
  match goAtoi (majorPart version) with
  | none => .error .parseError
  | some n => .ok (majorPart version, n)

/-- validateTLSHelloID (part_000): checks that utls.UTLSIdToSpec resolves the
identifier.  Collaborator contract: every identifier of the ClientHelloID
enumeration is a pinned utls profile and resolves, so validation succeeds. -/
def validateTLSHelloID (_ : ClientHelloID) : Except MimicError Unit :=
  .ok ()

/-- Token characters valid in a MIME header field name
(net/textproto validHeaderFieldByte): ASCII letters, digits and
a fixed punctuation set (the characters with codes 33, 35, 36, 37, 38, 39,
42, 43, 45, 46, 94, 95, 96, 124, 126). -/
def validHeaderFieldChar (c : Char) : Bool :=
  c.isAlpha || c.isDigit ||
    [Char.ofNat 33, Char.ofNat 35, Char.ofNat 36, Char.ofNat 37, Char.ofNat 38,
     Char.ofNat 39, Char.ofNat 42, Char.ofNat 43, Char.ofNat 45, Char.ofNat 46,
     Char.ofNat 94, Char.ofNat 95, Char.ofNat 96, Char.ofNat 124,
     Char.ofNat 126].contains c

/-- The canonicalisation loop of net/textproto canonicalMIMEHeaderKey: each
letter is uppercased when it follows a dash (or starts the key) and lowercased
otherwise. -/
def canonChars : Bool → List Char → List Char
  | _, [] => []
  | up, c :: cs =>
    let c2 := if up then c.toUpper else c.toLower
    c2 :: canonChars (c2 = Char.ofNat 45) cs

/-- net/textproto CanonicalMIMEHeaderKey: a key containing a character that is
not a valid header-field byte is returned unchanged, otherwise it is
canonicalised. -/
def canonicalKey (s : String) : String :=
  if s.toList.all validHeaderFieldChar then ⟨canonChars true s.toList⟩ else s

/-- http.Header: a Go map from canonical keys to value lists, embedded as an
association list with unique keys. -/
abbrev Header := List (String × List String)

/-- Plain association-list lookup (the Go map read). -/
def hLookup (h : Header) (k : String) : Option (List String) :=
  match h with
  | [] => none
  | (k2, v) :: t => if k2 = k then some v else hLookup t k

/-- Plain association-list update: the Go map write h[k] = vs.  The first
binding of the key is replaced, a missing key is appended. -/
def hStore (h : Header) (k : String) (vs : List String) : Header :=
  match h with
  | [] => [(k, vs)]
  | (k2, v) :: t => if k2 = k then (k, vs) :: t else (k2, v) :: hStore t k vs

/-- http.Header.Set: stores the single value under the canonical key. -/
def hSet (h : Header) (k v : String) : Header :=
  hStore h (canonicalKey k) [v]

/-- http.Header.Get: the first value stored under the canonical key, or the
empty string when the key is missing or has no values. -/
def hGetStr (h : Header) (k : String) : String :=
  match hLookup h (canonicalKey k) with
  | some (v :: _) => v
  | _ => ""

/-- The key set of the header map. -/
def hKeys (h : Header) : List String := h.map Prod.fst

/-- fhttp http.HeaderOrderKey: the magic key holding the explicit header
order. -/
def HeaderOrderKey : String := "Header-Order:"

/-- fhttp http.PHeaderOrderKey: the magic key holding the pseudo header
order. -/
def PHeaderOrderKey : String := "PHeader-Order:"

/-- GREASE placeholder brand and version pair.  Modelled from the spec:
the function clientHintUA called by chromiumBuildHeaders is not among the
provided sources; spec 4.4 describes a randomized-but-deterministic GREASE
placeholder derived from the version, with fixed placeholder text variants. -/
def greasePair (majorNum : Int) : String × String :=
  let s := (majorNum % 3).toNat
  (["Not A;Brand", "Not)A;Brand", "Not(A:Brand"].getD s "Not A;Brand",
   ["8", "24", "99"].getD s "24")

/-- Deterministic permutation of a three-element list selected by a
version-derived seed.  Modelled from the spec: spec 4.4 permutes the ordered
brand list deterministically from a version-derived seed. -/
def permute3 (seed : Int) (xs : List (String × String)) : List (String × String) :=
  match xs with
  | [a, b, c] =>
    let r := seed % 6
    if r = 0 then [a, b, c]
    else if r = 1 then [a, c, b]
    else if r = 2 then [b, a, c]
    else if r = 3 then [b, c, a]
    else if r = 4 then [c, a, b]
    else [c, b, a]
  | other => other

/-- One sec-ch-ua list entry, rendered as a quoted brand with a quoted
version. -/
def brandEntry (e : String × String) : String :=
  "\"" ++ e.1 ++ "\";v=\"" ++ e.2 ++ "\""

/-- Modelled from the spec: clientHintUA (called at chromium.go line 131 but
missing from the provided sources) builds the ordered list of the GREASE
placeholder, the literal Chromium entry and the real brand, permutes it
deterministically from the version-derived seed, and joins the entries
comma-separated in the published Brand - v - Major format. -/
def clientHintUA (brand : Brand) (majorStr : String) (majorNum : Int) : String :=
  String.intercalate ", "
    ((permute3 majorNum
      [greasePair majorNum, ("Chromium", majorStr), (brandName brand, majorStr)]).map
      brandEntry)

/-- ClientSpec (part_000): all browser-specific configuration.  The tlsSpecFn
field returns, per platform, the hello identifier whose fresh-copy factory the
Go code installs (newTLSSpecFunc id); the factory itself is determined by the
identifier, so the embedding keeps the identifier. -/
structure ClientSpec where
  version : String
  http2Options : HTTP2Options
  tlsSpecFn : Platform → Except MimicError ClientHelloID
  buildHeaders : Platform → Except MimicError Header

/-- ClientSpec.Version accessor (part_000). -/
def ClientSpec.Version (c : ClientSpec) : String := c.version

/-- ClientSpec.HTTP2Opts accessor (part_000). -/
def ClientSpec.HTTP2Opts (c : ClientSpec) : HTTP2Options := c.http2Options

/-- ClientSpec.PseudoHeaderOrder accessor (part_000). -/
def ClientSpec.pseudoHeaderOrderOf (c : ClientSpec) : List String :=
  c.http2Options.PseudoHeaderOrder

/-- chromiumTLSHelloID (chromium.go): the version-banded utls profile
switch. -/
def chromiumTLSHelloID (majorNum : Int) : ClientHelloID :=
  if majorNum < 102 then HelloChrome_100
  else if majorNum < 106 then HelloChrome_102
  else if majorNum < 112 then HelloChrome_106_Shuffle
  else if majorNum < 114 then HelloChrome_112_PSK_Shuf
  else if majorNum < 115 then HelloChrome_114_Padding_PSK_Shuf
  else if majorNum < 120 then HelloChrome_115_PQ
  else if majorNum < 131 then HelloChrome_120
  else if majorNum < 133 then HelloChrome_131
  else HelloChrome_133

/-- chromiumHTTP2Options (chromium.go): three version bands sharing the
pseudo-header order and the InitialWindowSize and HeaderTableSize
constants. -/
def chromiumHTTP2Options (majorNum : Int) : HTTP2Options :=
  let base : HTTP2Options :=
    { Settings := []
      PseudoHeaderOrder := [":method", ":authority", ":scheme", ":path"]
      MaxHeaderListSize := 262144
      InitialWindowSize := 6291456
      HeaderTableSize := 65536
      ConnectionFlow := 0
      HeaderPriority := none }
  if majorNum < 107 then
    { base with
      Settings :=
        [(SettingHeaderTableSize, 65536), (SettingMaxConcurrentStreams, 1000),
         (SettingInitialWindowSize, 6291456), (SettingMaxHeaderListSize, 100000)]
      MaxHeaderListSize := 100000 }
  else if majorNum < 120 then
    { base with
      Settings :=
        [(SettingHeaderTableSize, 65536), (SettingEnablePush, 0),
         (SettingMaxConcurrentStreams, 1000), (SettingInitialWindowSize, 6291456),
         (SettingMaxHeaderListSize, 262144)] }
  else
    { base with
      Settings :=
        [(SettingHeaderTableSize, 65536), (SettingEnablePush, 0),
         (SettingInitialWindowSize, 6291456), (SettingMaxHeaderListSize, 262144)] }

/-- chromiumBuildHeaders (chromium.go): platform-dependent user agent plus the
three client-hint headers; Edge appends its marker to the user agent,
unsupported platforms fail. -/
def chromiumBuildHeaders (brand : Brand) (version majorStr : String) (majorNum : Int)
    (p : Platform) : Except MimicError Header :=
  let uaPair : Option (String × String) :=
    match p with
    | PlatformWindows => some ("Windows NT 10.0; Win64; x64", "Windows")
    | PlatformMac => some ("Macintosh; Intel Mac OS X 10_15_7", "macOS")
    | PlatformLinux => some ("X11; Linux x86_64", "Linux")
    | _ => none
  match uaPair with
  | none => .error .unsupportedPlatform
  | some (uaPlatform, hintPlatform) =>
    let ua := "Mozilla/5.0 (" ++ uaPlatform ++
      ") AppleWebKit/537.36 (KHTML, like Gecko) Chrome/" ++ version ++ " Safari/537.36"
    let ua := if brand = BrandEdge then ua ++ " Edg/" ++ version else ua
    .ok (hSet (hSet (hSet (hSet [] "user-agent" ua)
      "sec-ch-ua" (clientHintUA brand majorStr majorNum))
      "sec-ch-ua-mobile" "?0")
      "sec-ch-ua-platform" ("\"" ++ hintPlatform ++ "\""))

/-- Chromium (chromium.go): parse the version, require major at least 100,
resolve and validate the banded hello identifier, and assemble the spec.  The
tlsSpecFn closure ignores its platform argument. -/
def Chromium (brand : Brand) (version : String) : Except MimicError ClientSpec :=
  match parseMajorVersion version with
  | .error e => .error e
  | .ok (majorStr, majorNum) =>
    if majorNum < 100 then .error .unsupportedVersion
    else
      match validateTLSHelloID (chromiumTLSHelloID majorNum) with
      | .error e => .error e
      | .ok _ =>
        .ok { version := version
              http2Options := chromiumHTTP2Options majorNum
              tlsSpecFn := fun _ => .ok (chromiumTLSHelloID majorNum)
              buildHeaders := chromiumBuildHeaders brand version majorStr majorNum }

/-- firefoxTLSHelloID (part_002): the eight-band utls profile switch. -/
def firefoxTLSHelloID (majorNum : Int) : ClientHelloID :=
  if majorNum < 56 then HelloFirefox_55
  else if majorNum < 63 then HelloFirefox_56
  else if majorNum < 65 then HelloFirefox_63
  else if majorNum < 99 then HelloFirefox_65
  else if majorNum < 102 then HelloFirefox_99
  else if majorNum < 105 then HelloFirefox_102
  else if majorNum < 120 then HelloFirefox_105
  else HelloFirefox_120

/-- firefoxHTTP2Options (part_002): fixed for every supported version. -/
def firefoxHTTP2Options : HTTP2Options :=
  { Settings :=
      [(SettingHeaderTableSize, 65536), (SettingInitialWindowSize, 131072),
       (SettingMaxFrameSize, 16384)]
    PseudoHeaderOrder := [":method", ":path", ":authority", ":scheme"]
    MaxHeaderListSize := 0
    InitialWindowSize := 131072
    HeaderTableSize := 65536
    ConnectionFlow := 12517377
    HeaderPriority := some { StreamDep := 13, Exclusive := false, Weight := 41 } }

/-- firefoxBuildHeaders (part_002): only a user-agent header, with the Gecko
rv token; unsupported platforms fail. -/
def firefoxBuildHeaders (version : String) (p : Platform) : Except MimicError Header :=
  let uaPlatform : Option String :=
    match p with
    | PlatformWindows => some "Windows NT 10.0; Win64; x64"
    | PlatformMac => some "Macintosh; Intel Mac OS X 10.15"
    | PlatformLinux => some "X11; Linux x86_64"
    | _ => none
  match uaPlatform with
  | none => .error .unsupportedPlatform
  | some uaPlatform =>
    .ok (hSet [] "user-agent"
      ("Mozilla/5.0 (" ++ uaPlatform ++ "; rv:" ++ version ++
       ") Gecko/20100101 Firefox/" ++ version))

/-- Firefox (part_002): parse the version, require major at least 55, resolve
and validate the banded hello identifier, and assemble the spec.  The
tlsSpecFn closure ignores its platform argument. -/
def Firefox (version : String) : Except MimicError ClientSpec :=
  match parseMajorVersion version with
  | .error e => .error e
  | .ok (_, majorNum) =>
    if majorNum < 55 then .error .unsupportedVersion
    else
      match validateTLSHelloID (firefoxTLSHelloID majorNum) with
      | .error e => .error e
      | .ok _ =>
        .ok { version := version
              http2Options := firefoxHTTP2Options
              tlsSpecFn := fun _ => .ok (firefoxTLSHelloID majorNum)
              buildHeaders := firefoxBuildHeaders version }

/-- safariTLSSpecFn (safari source in the edge example file): the hello
identifier is platform dependent, and windows or linux fail. -/
def safariTLSSpecFn (p : Platform) : Except MimicError ClientHelloID :=
  match p with
  | PlatformIOS => .ok HelloIOS_14
  | PlatformMac => .ok HelloSafari_16_0
  | PlatformIPadOS => .ok HelloSafari_16_0
  | _ => .error .unsupportedPlatform

/-- safariHTTP2Options: fixed for every supported version. -/
def safariHTTP2Options : HTTP2Options :=
  { Settings :=
      [(SettingHeaderTableSize, 4096), (SettingEnablePush, 0),
       (SettingMaxConcurrentStreams, 100), (SettingInitialWindowSize, 2097152),
       (SettingMaxFrameSize, 16384), (SettingEnableConnectProtocol, 1)]
    PseudoHeaderOrder := [":method", ":scheme", ":path", ":authority"]
    MaxHeaderListSize := 0
    InitialWindowSize := 2097152
    HeaderTableSize := 4096
    ConnectionFlow := 10485760
    HeaderPriority := none }

/-- safariBuildHeaders: only a user-agent header; macOS freezes the OS token,
iOS and iPadOS substitute underscores for dots in the version. -/
def safariBuildHeaders (version : String) (p : Platform) : Except MimicError Header :=
  let ua : Option String :=
    match p with
    | PlatformMac =>
      some ("Mozilla/5.0 (Macintosh; Intel Mac OS X 10_15_7) AppleWebKit/605.1.15 (KHTML, like Gecko) Version/"
        ++ version ++ " Safari/605.1.15")
    | PlatformIOS =>
      some ("Mozilla/5.0 (iPhone; CPU iPhone OS " ++ version.replace "." "_" ++
        " like Mac OS X) AppleWebKit/605.1.15 (KHTML, like Gecko) Version/" ++ version ++
        " Mobile/15E148 Safari/604.1")
    | PlatformIPadOS =>
      some ("Mozilla/5.0 (iPad; CPU OS " ++ version.replace "." "_" ++
        " like Mac OS X) AppleWebKit/605.1.15 (KHTML, like Gecko) Version/" ++ version ++
        " Mobile/15E148 Safari/604.1")
    | _ => none
  match ua with
  | none => .error .unsupportedPlatform
  | some ua => .ok (hSet [] "user-agent" ua)

/-- Safari: parse the version, require major at least 16, eagerly validate
both reachable hello identifiers, and assemble the spec with the
platform-dependent tlsSpecFn. -/
def Safari (version : String) : Except MimicError ClientSpec :=
  match parseMajorVersion version with
  | .error e => .error e
  | .ok (_, majorNum) =>
    if majorNum < 16 then .error .unsupportedVersion
    else
      match validateTLSHelloID HelloSafari_16_0, validateTLSHelloID HelloIOS_14 with
      | .error e, _ => .error e
      | _, .error e => .error e
      | .ok _, .ok _ =>
        .ok { version := version
              http2Options := safariHTTP2Options
              tlsSpecFn := safariTLSSpecFn
              buildHeaders := safariBuildHeaders version }

/-- The fields of an fhttp http.Transport (together with its associated
http2.Transport) touched by ConfigureTransport.  The installed
GetTlsClientHelloSpec supplier is represented by the hello identifier it was
built from; http2Enabled records that http2.ConfigureTransports ran. -/
structure GoTransport where
  getTlsClientHelloSpec : Option ClientHelloID
  http2Enabled : Bool
  settings : List Setting
  maxHeaderListSize : Nat
  initialWindowSize : Nat
  headerTableSize : Nat
  transportConnFlow : Nat
  headerPriority : Option PriorityParam
  deriving DecidableEq, Repr

/-- A base transport before any configuration: no supplier installed, fhttp
defaults in the http2 fields (TransportConnFlow default 15663105, no header
priority, http2 not yet explicitly enabled). -/
def zeroTransport : GoTransport :=
  { getTlsClientHelloSpec := none
    http2Enabled := false
    settings := []
    maxHeaderListSize := 0
    initialWindowSize := 0
    headerTableSize := 0
    transportConnFlow := 15663105
    headerPriority := none }

/-- ClientSpec.ConfigureTransport (part_000): resolve the TLS spec function
for the platform (returning the error with the transport untouched on
failure), install the supplier, enable HTTP2 (collaborator contract: safe and
successful even when already enabled), and copy the HTTP2 options, where a
zero ConnectionFlow and an absent HeaderPriority leave the fhttp defaults
untouched.  The pair returned is the transport after the call together with
the returned error. -/
def ClientSpec.ConfigureTransport (c : ClientSpec) (t : GoTransport) (p : Platform) :
    GoTransport × Option MimicError :=
  match c.tlsSpecFn p with
  | .error e => (t, some e)
  | .ok helloID =>
    let t1 := { t with getTlsClientHelloSpec := some helloID, http2Enabled := true }
    let t2 := { t1 with
      settings := c.http2Options.Settings
      maxHeaderListSize := c.http2Options.MaxHeaderListSize
      initialWindowSize := c.http2Options.InitialWindowSize
      headerTableSize := c.http2Options.HeaderTableSize }
    let t3 := if c.http2Options.ConnectionFlow > 0 then
        { t2 with transportConnFlow := c.http2Options.ConnectionFlow } else t2
    let t4 := match c.http2Options.HeaderPriority with
      | some pp => { t3 with headerPriority := some pp }
      | none => t3
    (t4, none)

/-- The wrapper Transport (part_001): base executor aside, it owns the
resolved pseudo-header order and default header set. -/
structure Transport where
  pseudoHeaderOrder : List String
  defaultHeaders : Header
  deriving Repr

/-- NewTransport (part_001): configure the base transport (failures are
wrapped and returned), build the default headers for the platform (failures
returned as is), and wrap.  The returned pair is the base transport as left
behind by the call together with the result. -/
def NewTransport (spec : ClientSpec) (platform : Platform) (base : GoTransport) :
    GoTransport × Except MimicError Transport :=
  match spec.ConfigureTransport base platform with
  | (t, some e) => (t, .error e)
  | (t, none) =>
    match spec.buildHeaders platform with
    | .error e => (t, .error e)
    | .ok headers =>
      (t, .ok { pseudoHeaderOrder := spec.http2Options.PseudoHeaderOrder
                defaultHeaders := headers })

/-- Exchange the entries at two positions of a list; out-of-range positions
leave the list unchanged (the swap callback of rand.Shuffle). -/
def listSwap (xs : List α) (i j : Nat) : List α :=
  match xs[i]?, xs[j]? with
  | some a, some b => (xs.set i b).set j a
  | _, _ => xs

/-- The descending Fisher-Yates loop of math/rand Shuffle: for i from n-1 down
to 1, draw j uniformly in the closed range 0..i and swap positions i and j.
The random source is an oracle giving the drawn number at each index. -/
def fyLoop (rnd : Nat → Nat) : Nat → List α → List α
  | 0, xs => xs
  | i + 1, xs => fyLoop rnd i (listSwap xs (i + 1) (rnd (i + 1) % (i + 2)))

/-- rand.Shuffle over a list, with the random source as an oracle. -/
def shuffle (rnd : Nat → Nat) (xs : List α) : List α :=
  fyLoop rnd (xs.length - 1) xs

/-- Step 1 of Transport.RoundTrip (part_001): the raw map write installing the
pseudo-header order unconditionally. -/
def applyPseudo (po : List String) (h : Header) : Header :=
  hStore h PHeaderOrderKey po

/-- One iteration of the default-header loop of Transport.RoundTrip
(part_001): skip the default when the request already has a non-empty value
for the name, otherwise set its first value; defaults without values are
skipped. -/
def stepDefault (acc : Header) (kv : String × List String) : Header :=
  if hGetStr acc kv.1 ≠ "" then acc
  else
    match kv.2 with
    | [] => acc
    | v :: _ => hSet acc kv.1 v

/-- Step 2 of Transport.RoundTrip (part_001): the default-header loop. -/
def injectDefaults (defaults : Header) (h : Header) : Header :=
  defaults.foldl stepDefault h

/-- Step 3 of Transport.RoundTrip (part_001): when no explicit header order is
present, collect every key of the map and install a shuffled copy under the
header-order key. -/
def installOrder (rnd : Nat → Nat) (h : Header) : Header :=
  match hLookup h HeaderOrderKey with
  | some _ => h
  | none => hStore h HeaderOrderKey (shuffle rnd (hKeys h))

/-- The header transformation performed by Transport.RoundTrip (part_001)
before delegating to the base executor. -/
def roundTripHeader (t : Transport) (rnd : Nat → Nat) (h : Header) : Header :=
  installOrder rnd (injectDefaults t.defaultHeaders (applyPseudo t.pseudoHeaderOrder h))

/-- The selection rule in the words of the spec: the profile of the first
table entry whose exclusive upper bound exceeds the major version, and the
newest entry when no bound exceeds it. -/
def selectProfile (table : List (Int × ClientHelloID)) (newest : ClientHelloID)
    (major : Int) : ClientHelloID :=
  match table with
  | [] => newest
  | (bound, id) :: rest => if major < bound then id else selectProfile rest newest major

/-- The ordered Chromium hello table of exclusive-upper-bound and profile
pairs, with HelloChrome_133 as the open-ended newest entry. -/
def chromiumHelloTable : List (Int × ClientHelloID) :=
  [(102, HelloChrome_100), (106, HelloChrome_102), (112, HelloChrome_106_Shuffle),
   (114, HelloChrome_112_PSK_Shuf), (115, HelloChrome_114_Padding_PSK_Shuf),
   (120, HelloChrome_115_PQ), (131, HelloChrome_120), (133, HelloChrome_131)]

/-- Boolean success test for Except results whose value type carries
functions. -/
def exceptOk (e : Except MimicError α) : Bool :=
  match e with
  | .ok _ => true
  | .error _ => false

/-- The configuration outcome of the Chromium 137 spec applied to the zero
transport on iOS, used to exercise ConfigureTransport on a platform outside
the Chromium set. -/
def chromiumConfigure137ios : GoTransport × Option MimicError :=
  match Chromium BrandChrome "137.0.0.0" with
  | .ok spec => spec.ConfigureTransport zeroTransport PlatformIOS
  | .error _ => (zeroTransport, some .parseError)

/-- The default header set built by the Safari 18.3 spec for macOS. -/
def safariHeaders183mac : Except MimicError Header :=
  match Safari "18.3" with
  | .ok spec => spec.buildHeaders PlatformMac
  | .error e => .error e

theorem hStore_lookup_self (h : Header) (k : String) (vs : List String) :
    hLookup (hStore h k vs) k = some vs := by
  induction h with
  | nil => simp [hStore, hLookup]
  | cons kv t ih =>
    obtain ⟨k2, v⟩ := kv
    by_cases hk : k2 = k
    · simp [hStore, hLookup, hk]
    · simp [hStore, hLookup, hk, ih]

theorem hStore_lookup_ne (h : Header) (k k2 : String) (vs : List String)
    (hne : k2 ≠ k) : hLookup (hStore h k vs) k2 = hLookup h k2 := by
  induction h with
  | nil => simp [hStore, hLookup, Ne.symm hne]
  | cons kv t ih =>
    obtain ⟨k3, v⟩ := kv
    by_cases hk : k3 = k
    · subst hk
      simp [hStore, hLookup, Ne.symm hne]
    · by_cases hk2 : k3 = k2
      · subst hk2
        simp [hStore, hLookup, hk]
      · simp [hStore, hLookup, hk, hk2, ih]

theorem hKeys_cons (kv : String × List String) (t : Header) :
    hKeys (kv :: t) = kv.1 :: hKeys t := rfl

theorem mem_hKeys_hStore (h : Header) (k x : String) (vs : List String)
    (hx : x ∈ hKeys (hStore h k vs)) : x ∈ hKeys h ∨ x = k := by
  induction h with
  | nil =>
    simp only [hStore, hKeys_cons] at hx
    exact Or.inr (by simpa [hKeys] using hx)
  | cons kv t ih =>
    obtain ⟨k2, v⟩ := kv
    by_cases hk : k2 = k
    · subst hk
      simp only [hStore, if_pos rfl, hKeys_cons] at hx
      rcases List.mem_cons.mp hx with hx | hx
      · exact Or.inr hx
      · exact Or.inl (by rw [hKeys_cons]; exact List.mem_cons_of_mem _ hx)
    · simp only [hStore, if_neg hk, hKeys_cons] at hx
      rcases List.mem_cons.mp hx with hx | hx
      · exact Or.inl (by rw [hKeys_cons]; exact hx ▸ List.mem_cons_self _ _)
      · rcases ih hx with h2 | h2
        · exact Or.inl (by rw [hKeys_cons]; exact List.mem_cons_of_mem _ h2)
        · exact Or.inr h2

theorem hKeys_hStore_nodup (h : Header) (k : String) (vs : List String)
    (hnd : (hKeys h).Nodup) : (hKeys (hStore h k vs)).Nodup := by
  induction h with
  | nil => simp [hStore, hKeys]
  | cons kv t ih =>
    obtain ⟨k2, v⟩ := kv
    rw [hKeys_cons] at hnd
    obtain ⟨hnotin, hnd2⟩ := List.nodup_cons.mp hnd
    by_cases hk : k2 = k
    · subst hk
      simp only [hStore, if_pos rfl, hKeys_cons]
      exact List.nodup_cons.mpr ⟨hnotin, hnd2⟩
    · simp only [hStore, if_neg hk, hKeys_cons]
      refine List.nodup_cons.mpr ⟨fun hx => ?_, ih hnd2⟩
      rcases mem_hKeys_hStore t k k2 vs hx with h2 | h2
      · exact hnotin h2
      · exact hk h2

theorem cons_set_perm (xs : List α) (k : Nat) (b x : α) (h : xs[k]? = some b) :
    (b :: xs.set k x).Perm (x :: xs) := by
  induction xs generalizing k with
  | nil => simp at h
  | cons y t ih =>
    cases k with
    | zero =>
      have hb : y = b := by simpa using h
      subst hb
      exact List.Perm.swap x y t
    | succ k =>
      have h2 : t[k]? = some b := by simpa using h
      exact ((List.Perm.swap y b (t.set k x)).trans
        (List.Perm.cons y (ih k h2))).trans (List.Perm.swap x y t)

theorem set_set_swap_perm (xs : List α) (i j : Nat) (a b : α)
    (hi : xs[i]? = some a) (hj : xs[j]? = some b) :
    ((xs.set i b).set j a).Perm xs := by
  induction xs generalizing i j with
  | nil => simp at hi
  | cons y t ih =>
    cases i with
    | zero =>
      have hy : y = a := by simpa using hi
      subst hy
      cases j with
      | zero => exact List.Perm.refl _
      | succ j =>
        have hj2 : t[j]? = some b := by simpa using hj
        exact cons_set_perm t j b y hj2
    | succ i =>
      have hi2 : t[i]? = some a := by simpa using hi
      cases j with
      | zero =>
        have hy : y = b := by simpa using hj
        subst hy
        exact cons_set_perm t i a y hi2
      | succ j =>
        have hj2 : t[j]? = some b := by simpa using hj
        exact List.Perm.cons y (ih i j hi2 hj2)

theorem listSwap_perm (xs : List α) (i j : Nat) : (listSwap xs i j).Perm xs := by
  unfold listSwap
  cases hi : xs[i]? with
  | none => exact List.Perm.refl xs
  | some a =>
    cases hj : xs[j]? with
    | none => exact List.Perm.refl xs
    | some b => exact set_set_swap_perm xs i j a b hi hj

theorem fyLoop_perm (rnd : Nat → Nat) (n : Nat) (xs : List α) :
    (fyLoop rnd n xs).Perm xs := by
  induction n generalizing xs with
  | zero => exact List.Perm.refl xs
  | succ i ih =>
    exact (ih _).trans (listSwap_perm xs (i + 1) (rnd (i + 1) % (i + 2)))

theorem shuffle_perm (rnd : Nat → Nat) (xs : List α) : (shuffle rnd xs).Perm xs :=
  fyLoop_perm rnd (xs.length - 1) xs

theorem injectDefaults_cons (kv : String × List String) (rest : Header) (h : Header) :
    injectDefaults (kv :: rest) h = injectDefaults rest (stepDefault h kv) := rfl

theorem stepDefault_lookup_ne (h : Header) (kv : String × List String) (ck : String)
    (hne : canonicalKey kv.1 ≠ ck) :
    hLookup (stepDefault h kv) ck = hLookup h ck := by
  unfold stepDefault
  split
  · rfl
  · match kv.2 with
    | [] => rfl
    | v :: _ => exact hStore_lookup_ne h (canonicalKey kv.1) ck [v] (Ne.symm hne)

theorem injectDefaults_lookup_ne (defaults : Header) :
    ∀ h : Header, ∀ ck : String, (∀ kv ∈ defaults, canonicalKey kv.1 ≠ ck) →
    hLookup (injectDefaults defaults h) ck = hLookup h ck := by
  induction defaults with
  | nil => intro h ck _; rfl
  | cons kv rest ih =>
    intro h ck hck
    rw [injectDefaults_cons,
      ih (stepDefault h kv) ck (fun kv2 hm => hck kv2 (List.mem_cons_of_mem _ hm))]
    exact stepDefault_lookup_ne h kv ck (hck kv (List.mem_cons_self _ _))

theorem hGetStr_congr (h1 h2 : Header) (k : String)
    (he : hLookup h1 (canonicalKey k) = hLookup h2 (canonicalKey k)) :
    hGetStr h1 k = hGetStr h2 k := by
  unfold hGetStr
  rw [he]

theorem injectDefaults_lookup_mem (k : String) (vs : List String) (defaults : Header) :
    ∀ h : Header, (k, vs) ∈ defaults →
    (defaults.map (fun kv => canonicalKey kv.1)).Nodup →
    hLookup (injectDefaults defaults h) (canonicalKey k) =
      if hGetStr h k = "" then
        (if vs = [] then hLookup h (canonicalKey k) else some [vs.headD ""])
      else hLookup h (canonicalKey k) := by
  induction defaults with
  | nil => intro h hmem _; exact absurd hmem (List.not_mem_nil _)
  | cons kv rest ih =>
    intro h hmem hnd
    rw [List.map_cons, List.nodup_cons] at hnd
    obtain ⟨hhead, hndrest⟩ := hnd
    rcases List.mem_cons.mp hmem with heq | hmemrest
    · subst heq
      have hrest : ∀ kv2 ∈ rest, canonicalKey kv2.1 ≠ canonicalKey k := by
        intro kv2 hm hc
        exact hhead (hc ▸ List.mem_map_of_mem _ hm)
      rw [injectDefaults_cons, injectDefaults_lookup_ne rest _ _ hrest]
      by_cases hg : hGetStr h k = ""
      · rw [if_pos hg]
        unfold stepDefault
        rw [if_neg (by simp [hg])]
        cases vs with
        | nil => simp
        | cons v tl =>
          rw [if_neg (List.cons_ne_nil v tl)]
          exact hStore_lookup_self h (canonicalKey k) [v]
      · rw [if_neg hg]
        unfold stepDefault
        rw [if_pos hg]
    · have hne : canonicalKey kv.1 ≠ canonicalKey k := by
        intro hc
        exact hhead (by rw [hc]; exact List.mem_map_of_mem _ hmemrest)
      have hstep_lookup : hLookup (stepDefault h kv) (canonicalKey k) =
          hLookup h (canonicalKey k) := stepDefault_lookup_ne h kv _ hne
      rw [injectDefaults_cons, ih (stepDefault h kv) hmemrest hndrest,
        hGetStr_congr (stepDefault h kv) h k hstep_lookup, hstep_lookup]

theorem stepDefault_keys_nodup (h : Header) (kv : String × List String)
    (hnd : (hKeys h).Nodup) : (hKeys (stepDefault h kv)).Nodup := by
  unfold stepDefault
  split
  · exact hnd
  · match kv.2 with
    | [] => exact hnd
    | v :: _ => exact hKeys_hStore_nodup h (canonicalKey kv.1) [v] hnd

theorem injectDefaults_keys_nodup (defaults : Header) :
    ∀ h : Header, (hKeys h).Nodup → (hKeys (injectDefaults defaults h)).Nodup := by
  induction defaults with
  | nil => intro h hnd; exact hnd
  | cons kv rest ih =>
    intro h hnd
    rw [injectDefaults_cons]
    exact ih (stepDefault h kv) (stepDefault_keys_nodup h kv hnd)

theorem installOrder_lookup_ne (rnd : Nat → Nat) (h : Header) (k : String)
    (hne : k ≠ HeaderOrderKey) :
    hLookup (installOrder rnd h) k = hLookup h k := by
  unfold installOrder
  split
  · rfl
  · exact hStore_lookup_ne h HeaderOrderKey k _ hne

theorem Chromium_ok_elim (b : Brand) (v : String) (spec : ClientSpec)
    (h : Chromium b v = .ok spec) :
    ∃ (ms : String) (mn : Int), parseMajorVersion v = .ok (ms, mn) ∧ ¬ mn < 100 ∧
      spec = { version := v
               http2Options := chromiumHTTP2Options mn
               tlsSpecFn := fun _ => .ok (chromiumTLSHelloID mn)
               buildHeaders := chromiumBuildHeaders b v ms mn } := by
  unfold Chromium at h
  split at h
  · exact Except.noConfusion h
  · rename_i ms2 mn2 heq
    split at h
    · exact Except.noConfusion h
    · rename_i hlt
      exact ⟨ms2, mn2, heq, hlt, (Except.ok.inj h).symm⟩

theorem Firefox_ok_elim (v : String) (spec : ClientSpec)
    (h : Firefox v = .ok spec) :
    ∃ (ms : String) (mn : Int), parseMajorVersion v = .ok (ms, mn) ∧ ¬ mn < 55 ∧
      spec = { version := v
               http2Options := firefoxHTTP2Options
               tlsSpecFn := fun _ => .ok (firefoxTLSHelloID mn)
               buildHeaders := firefoxBuildHeaders v } := by
  unfold Firefox at h
  split at h
  · exact Except.noConfusion h
  · rename_i ms2 mn2 heq
    split at h
    · exact Except.noConfusion h
    · rename_i hlt
      exact ⟨ms2, mn2, heq, hlt, (Except.ok.inj h).symm⟩

theorem Safari_ok_elim (v : String) (spec : ClientSpec)
    (h : Safari v = .ok spec) :
    ∃ (ms : String) (mn : Int), parseMajorVersion v = .ok (ms, mn) ∧ ¬ mn < 16 ∧
      spec = { version := v
               http2Options := safariHTTP2Options
               tlsSpecFn := safariTLSSpecFn
               buildHeaders := safariBuildHeaders v } := by
  unfold Safari at h
  split at h
  · exact Except.noConfusion h
  · rename_i ms2 mn2 heq
    split at h
    · exact Except.noConfusion h
    · rename_i hlt
      exact ⟨ms2, mn2, heq, hlt, (Except.ok.inj h).symm⟩

theorem ConfigureTransport_fields (c : ClientSpec) (t : GoTransport) (p : Platform)
    (id : ClientHelloID) (hid : c.tlsSpecFn p = .ok id) :
    (c.ConfigureTransport t p).2 = none ∧
    (c.ConfigureTransport t p).1.getTlsClientHelloSpec = some id ∧
    (c.ConfigureTransport t p).1.http2Enabled = true ∧
    (c.ConfigureTransport t p).1.settings = c.http2Options.Settings ∧
    (c.ConfigureTransport t p).1.maxHeaderListSize = c.http2Options.MaxHeaderListSize := by
  cases hpp : c.http2Options.HeaderPriority <;>
    by_cases hcf : c.http2Options.ConnectionFlow > 0 <;>
      simp [ClientSpec.ConfigureTransport, hid, hpp, hcf]

theorem NewTransport_eq_of (spec : ClientSpec) (p : Platform) (base : GoTransport)
    (e0 : MimicError) (hcfg : (spec.ConfigureTransport base p).2 = none)
    (hbh : spec.buildHeaders p = .error e0) :
    NewTransport spec p base = ((spec.ConfigureTransport base p).1, .error e0) := by
  unfold NewTransport
  rcases hc : spec.ConfigureTransport base p with ⟨t, e⟩
  rw [hc] at hcfg
  simp at hcfg
  subst hcfg
  simp [hbh]

/-- C1: Chromium(Chrome, "137.0.0.0") resolves the TLS profile of the open
133-and-newer band and the 120-and-newer HTTP2 band with MaxHeaderListSize
262144, and for every major version at least 100 the TLS profile of
chromiumTLSHelloID equals the first chromiumHelloTable entry whose exclusive
upper bound exceeds the major version, with the newest entry HelloChrome_133
when no bound exceeds it. -/
theorem chromium_137_resolution :
    (∃ spec, Chromium BrandChrome "137.0.0.0" = .ok spec ∧
      spec.tlsSpecFn PlatformWindows = .ok HelloChrome_133 ∧
      spec.http2Options.MaxHeaderListSize = 262144 ∧
      spec.http2Options.Settings =
        [(SettingHeaderTableSize, 65536), (SettingEnablePush, 0),
         (SettingInitialWindowSize, 6291456), (SettingMaxHeaderListSize, 262144)]) ∧
    (∀ n : Int, 100 ≤ n →
      chromiumTLSHelloID n = selectProfile chromiumHelloTable HelloChrome_133 n) := by
  constructor
  · exact ⟨_, rfl, rfl, rfl, rfl⟩
  · intro n _
    rfl

/-- Witness for C1: the selection rule instantiated at major version 137. -/
theorem chromium_137_resolution_witness :
    (100 : Int) ≤ 137 ∧
    chromiumTLSHelloID 137 = selectProfile chromiumHelloTable HelloChrome_133 137 :=
  ⟨by decide, chromium_137_resolution.2 137 (by decide)⟩

/-- C5 counterexample: the leading component -5 of the version string "-5.0"
is not a non-negative integer, yet all three constructors fail with
UnsupportedVersion, not with a parse error, because strconv.Atoi accepts a
leading sign. -/
theorem negative_major_not_parse_error :
    Chromium BrandChrome "-5.0" = .error .unsupportedVersion ∧
    Safari "-5.0" = .error .unsupportedVersion ∧
    Firefox "-5.0" = .error .unsupportedVersion ∧
    Chromium BrandChrome "-5.0" ≠ .error .parseError := by
  refine ⟨rfl, rfl, rfl, ?_⟩
  intro hcontra
  exact MimicError.noConfusion (Except.error.inj
    (((rfl : Chromium BrandChrome "-5.0" =
        Except.error MimicError.unsupportedVersion)).symm.trans hcontra))

/-- C5 amended: every version string whose leading component fails integer
parsing (empty, or containing a character that is not a digit after an
optional single leading sign, or out of the int64 range) makes all three
constructors fail with the parse error; a leading component that parses to a
negative integer instead falls through to the UnsupportedVersion check. -/
theorem constructors_parse_error (v : String)
    (hfail : goAtoi (majorPart v) = none) :
    (∀ b : Brand, Chromium b v = .error .parseError) ∧
    Safari v = .error .parseError ∧ Firefox v = .error .parseError := by
  have hp : parseMajorVersion v = .error .parseError := by
    unfold parseMajorVersion
    rw [hfail]
  refine ⟨fun b => ?_, ?_, ?_⟩
  · unfold Chromium
    rw [hp]
  · unfold Safari
    rw [hp]
  · unfold Firefox
    rw [hp]

/-- Witness for C5 amended: the version string "x.1" has the non-numeric
leading component "x" and every constructor fails with the parse error. -/
theorem constructors_parse_error_witness :
    goAtoi (majorPart "x.1") = none ∧
    Chromium BrandChrome "x.1" = .error .parseError ∧
    Safari "x.1" = .error .parseError ∧ Firefox "x.1" = .error .parseError :=
  ⟨rfl, (constructors_parse_error "x.1" rfl).1 BrandChrome,
    (constructors_parse_error "x.1" rfl).2.1, (constructors_parse_error "x.1" rfl).2.2⟩

/-- C6: every version string parsing to the family minimum major (Chromium
100, Safari 16, Firefox 55) is accepted by the constructor, and every version
string parsing to the major one below the minimum is rejected with
UnsupportedVersion. -/
theorem family_minimum_versions :
    (∀ (b : Brand) (v s : String), parseMajorVersion v = .ok (s, 100) →
      exceptOk (Chromium b v) = true) ∧
    (∀ (b : Brand) (v s : String), parseMajorVersion v = .ok (s, 99) →
      Chromium b v = .error .unsupportedVersion) ∧
    (∀ (v s : String), parseMajorVersion v = .ok (s, 16) →
      exceptOk (Safari v) = true) ∧
    (∀ (v s : String), parseMajorVersion v = .ok (s, 15) →
      Safari v = .error .unsupportedVersion) ∧
    (∀ (v s : String), parseMajorVersion v = .ok (s, 55) →
      exceptOk (Firefox v) = true) ∧
    (∀ (v s : String), parseMajorVersion v = .ok (s, 54) →
      Firefox v = .error .unsupportedVersion) := by
  refine ⟨fun b v s h => ?_, fun b v s h => ?_, fun v s h => ?_, fun v s h => ?_,
    fun v s h => ?_, fun v s h => ?_⟩
  · unfold Chromium
    rw [h]
    rfl
  · unfold Chromium
    rw [h]
    rfl
  · unfold Safari
    rw [h]
    rfl
  · unfold Safari
    rw [h]
    rfl
  · unfold Firefox
    rw [h]
    rfl
  · unfold Firefox
    rw [h]
    rfl

/-- Witness for C6: concrete version strings at and one below each family
minimum. -/
theorem family_minimum_versions_witness :
    (parseMajorVersion "100.0.0.0" = .ok ("100", 100) ∧
      exceptOk (Chromium BrandChrome "100.0.0.0") = true) ∧
    (parseMajorVersion "99.0.0.0" = .ok ("99", 99) ∧
      Chromium BrandChrome "99.0.0.0" = .error .unsupportedVersion) ∧
    (parseMajorVersion "16.0" = .ok ("16", 16) ∧ exceptOk (Safari "16.0") = true) ∧
    (parseMajorVersion "15.0" = .ok ("15", 15) ∧
      Safari "15.0" = .error .unsupportedVersion) ∧
    (parseMajorVersion "55.0" = .ok ("55", 55) ∧ exceptOk (Firefox "55.0") = true) ∧
    (parseMajorVersion "54.0" = .ok ("54", 54) ∧
      Firefox "54.0" = .error .unsupportedVersion) :=
  ⟨⟨rfl, family_minimum_versions.1 BrandChrome _ _ rfl⟩,
   ⟨rfl, family_minimum_versions.2.1 BrandChrome _ _ rfl⟩,
   ⟨rfl, family_minimum_versions.2.2.1 _ _ rfl⟩,
   ⟨rfl, family_minimum_versions.2.2.2.1 _ _ rfl⟩,
   ⟨rfl, family_minimum_versions.2.2.2.2.1 _ _ rfl⟩,
   ⟨rfl, family_minimum_versions.2.2.2.2.2 _ _ rfl⟩⟩

/-- C7: every spec built by the Firefox constructor carries the fixed HTTP2
profile: the three SETTINGS entries, connection flow control 12517377, the
pseudo-header order method path authority scheme, and the header priority with
stream dependency 13, exclusive false and wire weight 41 (zero-indexed,
representing logical weight 42). -/
theorem firefox_http2_profile (v : String) (spec : ClientSpec)
    (h : Firefox v = .ok spec) :
    spec.http2Options.Settings =
      [(SettingHeaderTableSize, 65536), (SettingInitialWindowSize, 131072),
       (SettingMaxFrameSize, 16384)] ∧
    spec.http2Options.ConnectionFlow = 12517377 ∧
    spec.http2Options.PseudoHeaderOrder = [":method", ":path", ":authority", ":scheme"] ∧
    spec.http2Options.HeaderPriority =
      some { StreamDep := 13, Exclusive := false, Weight := 41 } := by
  obtain ⟨ms, mn, hp, hlt, rfl⟩ := Firefox_ok_elim v spec h
  exact ⟨rfl, rfl, rfl, rfl⟩

/-- Witness for C7: the Firefox 134.0 spec exists and carries the fixed
profile. -/
theorem firefox_http2_profile_witness :
    ∃ spec, Firefox "134.0" = .ok spec ∧
      spec.http2Options.ConnectionFlow = 12517377 ∧
      spec.http2Options.HeaderPriority =
        some { StreamDep := 13, Exclusive := false, Weight := 41 } := by
  have hok : exceptOk (Firefox "134.0") = true := rfl
  cases h : Firefox "134.0" with
  | error e => rw [h] at hok; exact Bool.noConfusion hok
  | ok spec =>
    have hprof := firefox_http2_profile "134.0" spec h
    exact ⟨spec, rfl, hprof.2.1, hprof.2.2.2⟩

/-- C9: the Safari 18.3 spec on macOS builds a default header set holding
exactly the single name user-agent, whose value contains the version token
Version/18.3 and the frozen OS-version token 10_15_7 (the builder takes no
OS-version input at all). -/
theorem safari_18_3_mac_headers :
    safariHeaders183mac =
      .ok [("User-Agent",
        ["Mozilla/5.0 (Macintosh; Intel Mac OS X " ++ "10_15_7" ++
         ") AppleWebKit/605.1.15 (KHTML, like Gecko) " ++ "Version/18.3" ++
         " Safari/605.1.15"])] := by
  decide

/-- C2 counterexample: a Chromium spec configured on iOS, a platform outside
the Chromium set, returns no error at all from ConfigureTransport and mutates
the base transport (supplier installed, HTTP2 enabled), because the Chromium
tlsSpecFn ignores its platform argument. -/
theorem configure_chromium_ios_no_error :
    chromiumConfigure137ios.2 = none ∧
    chromiumConfigure137ios.1.getTlsClientHelloSpec = some HelloChrome_133 ∧
    chromiumConfigure137ios.1.http2Enabled = true ∧
    chromiumConfigure137ios.1 ≠ zeroTransport := by
  decide

/-- C2 amended: ConfigureTransport on a platform outside the family set fails
with UnsupportedPlatform and leaves the transport untouched for Safari (whose
TLS resolver is platform dependent); for Chromium and Firefox the TLS resolver
accepts every platform, so ConfigureTransport never reports a platform error
and the unsupported-platform failure surfaces only from the header builder
(see NewTransport). -/
theorem configure_platform_errors :
    (∀ (v : String) (spec : ClientSpec), Safari v = .ok spec →
      ∀ (t : GoTransport) (p : Platform), p = PlatformWindows ∨ p = PlatformLinux →
        spec.ConfigureTransport t p = (t, some .unsupportedPlatform)) ∧
    (∀ (b : Brand) (v : String) (spec : ClientSpec), Chromium b v = .ok spec →
      ∀ (t : GoTransport) (p : Platform), (spec.ConfigureTransport t p).2 = none) ∧
    (∀ (v : String) (spec : ClientSpec), Firefox v = .ok spec →
      ∀ (t : GoTransport) (p : Platform), (spec.ConfigureTransport t p).2 = none) := by
  refine ⟨fun v spec h t p hp => ?_, fun b v spec h t p => ?_, fun v spec h t p => ?_⟩
  · obtain ⟨ms, mn, hpv, hlt, rfl⟩ := Safari_ok_elim v spec h
    rcases hp with rfl | rfl <;> rfl
  · obtain ⟨ms, mn, hpv, hlt, rfl⟩ := Chromium_ok_elim b v spec h
    rfl
  · obtain ⟨ms, mn, hpv, hlt, rfl⟩ := Firefox_ok_elim v spec h
    rfl

/-- Witness for C2 amended: Safari 18.3 configured on windows fails with
UnsupportedPlatform leaving the zero transport untouched, and the Chromium
and Firefox clauses instantiated on iOS report no error. -/
theorem configure_platform_errors_witness :
    ∃ specS specC specF,
      Safari "18.3" = .ok specS ∧
      specS.ConfigureTransport zeroTransport PlatformWindows =
        (zeroTransport, some .unsupportedPlatform) ∧
      Chromium BrandChrome "137.0.0.0" = .ok specC ∧
      (specC.ConfigureTransport zeroTransport PlatformIOS).2 = none ∧
      Firefox "134.0" = .ok specF ∧
      (specF.ConfigureTransport zeroTransport PlatformIOS).2 = none := by
  have hokS : exceptOk (Safari "18.3") = true := rfl
  have hokC : exceptOk (Chromium BrandChrome "137.0.0.0") = true := rfl
  have hokF : exceptOk (Firefox "134.0") = true := rfl
  cases hS : Safari "18.3" with
  | error e => rw [hS] at hokS; exact Bool.noConfusion hokS
  | ok specS =>
    cases hC : Chromium BrandChrome "137.0.0.0" with
    | error e => rw [hC] at hokC; exact Bool.noConfusion hokC
    | ok specC =>
      cases hF : Firefox "134.0" with
      | error e => rw [hF] at hokF; exact Bool.noConfusion hokF
      | ok specF =>
        exact ⟨specS, specC, specF, rfl,
          configure_platform_errors.1 "18.3" specS hS zeroTransport PlatformWindows
            (Or.inl rfl),
          rfl,
          configure_platform_errors.2.1 BrandChrome "137.0.0.0" specC hC zeroTransport
            PlatformIOS,
          rfl,
          configure_platform_errors.2.2 "134.0" specF hF zeroTransport PlatformIOS⟩

/-- C10: for a Chromium or Firefox spec on iOS or iPadOS, NewTransport fails
with UnsupportedPlatform only after ConfigureTransport already succeeded, so
the caller-supplied base transport comes back with the hello supplier
installed and the HTTP2 settings applied while NewTransport returns the error
and no wrapper. -/
theorem newTransport_error_after_configure :
    (∀ (b : Brand) (v : String) (spec : ClientSpec) (base : GoTransport)
        (p : Platform), Chromium b v = .ok spec →
        p = PlatformIOS ∨ p = PlatformIPadOS →
      (spec.ConfigureTransport base p).2 = none ∧
      NewTransport spec p base =
        ((spec.ConfigureTransport base p).1, .error .unsupportedPlatform) ∧
      (spec.ConfigureTransport base p).1.getTlsClientHelloSpec ≠ none ∧
      (spec.ConfigureTransport base p).1.http2Enabled = true ∧
      (spec.ConfigureTransport base p).1.settings = spec.http2Options.Settings) ∧
    (∀ (v : String) (spec : ClientSpec) (base : GoTransport) (p : Platform),
        Firefox v = .ok spec → p = PlatformIOS ∨ p = PlatformIPadOS →
      (spec.ConfigureTransport base p).2 = none ∧
      NewTransport spec p base =
        ((spec.ConfigureTransport base p).1, .error .unsupportedPlatform) ∧
      (spec.ConfigureTransport base p).1.getTlsClientHelloSpec ≠ none ∧
      (spec.ConfigureTransport base p).1.http2Enabled = true ∧
      (spec.ConfigureTransport base p).1.settings = spec.http2Options.Settings) := by
  constructor
  · intro b v spec base p h hplat
    obtain ⟨ms, mn, hpv, hlt, rfl⟩ := Chromium_ok_elim b v spec h
    have hfields := ConfigureTransport_fields
      { version := v, http2Options := chromiumHTTP2Options mn,
        tlsSpecFn := fun _ => .ok (chromiumTLSHelloID mn),
        buildHeaders := chromiumBuildHeaders b v ms mn }
      base p (chromiumTLSHelloID mn) rfl
    have hbh : chromiumBuildHeaders b v ms mn p = .error .unsupportedPlatform := by
      rcases hplat with rfl | rfl <;> rfl
    exact ⟨hfields.1, NewTransport_eq_of _ p base _ hfields.1 hbh,
      by rw [hfields.2.1]; exact Option.noConfusion,
      hfields.2.2.1, hfields.2.2.2.1⟩
  · intro v spec base p h hplat
    obtain ⟨ms, mn, hpv, hlt, rfl⟩ := Firefox_ok_elim v spec h
    have hfields := ConfigureTransport_fields
      { version := v, http2Options := firefoxHTTP2Options,
        tlsSpecFn := fun _ => .ok (firefoxTLSHelloID mn),
        buildHeaders := firefoxBuildHeaders v }
      base p (firefoxTLSHelloID mn) rfl
    have hbh : firefoxBuildHeaders v p = .error .unsupportedPlatform := by
      rcases hplat with rfl | rfl <;> rfl
    exact ⟨hfields.1, NewTransport_eq_of _ p base _ hfields.1 hbh,
      by rw [hfields.2.1]; exact Option.noConfusion,
      hfields.2.2.1, hfields.2.2.2.1⟩

/-- Witness for C10: the Chromium 137 spec on iOS with the zero base
transport. -/
theorem newTransport_error_after_configure_witness :
    ∃ spec, Chromium BrandChrome "137.0.0.0" = .ok spec ∧
      (spec.ConfigureTransport zeroTransport PlatformIOS).2 = none ∧
      NewTransport spec PlatformIOS zeroTransport =
        ((spec.ConfigureTransport zeroTransport PlatformIOS).1,
          .error .unsupportedPlatform) ∧
      (spec.ConfigureTransport zeroTransport PlatformIOS).1.http2Enabled = true := by
  have hok : exceptOk (Chromium BrandChrome "137.0.0.0") = true := rfl
  cases h : Chromium BrandChrome "137.0.0.0" with
  | error e => rw [h] at hok; exact Bool.noConfusion hok
  | ok spec =>
    have hmain := newTransport_error_after_configure.1 BrandChrome "137.0.0.0" spec
      zeroTransport PlatformIOS h (Or.inl rfl)
    exact ⟨spec, rfl, hmain.1, hmain.2.1, hmain.2.2.2.1⟩

theorem permute3_perm (seed : Int) (a b c : String × String) :
    (permute3 seed [a, b, c]).Perm [a, b, c] := by
  simp only [permute3]
  split_ifs <;>
    first
      | exact List.Perm.refl _
      | exact List.Perm.cons _ (List.Perm.swap _ _ _)
      | exact List.Perm.swap _ _ _
      | exact (List.Perm.cons _ (List.Perm.swap _ _ _)).trans (List.Perm.swap _ _ _)
      | exact (List.Perm.swap _ _ _).trans (List.Perm.cons _ (List.Perm.swap _ _ _))
      | exact ((List.Perm.swap _ _ _).trans
          (List.Perm.cons _ (List.Perm.swap _ _ _))).trans (List.Perm.swap _ _ _)

/-- C8: the sec-ch-ua value is a pure function of the brand and major version
(the model takes no other input), rendered by joining comma-separated quoted
Brand - v - Major entries over a list that is a permutation, selected by the
version-derived seed, of the GREASE placeholder, the literal Chromium entry,
and the real brand entry. -/
theorem clientHintUA_structure (b : Brand) (majorStr : String) (n : Int) :
    clientHintUA b majorStr n =
      String.intercalate ", "
        ((permute3 n [greasePair n, ("Chromium", majorStr), (brandName b, majorStr)]).map
          brandEntry) ∧
    (permute3 n [greasePair n, ("Chromium", majorStr), (brandName b, majorStr)]).Perm
      [greasePair n, ("Chromium", majorStr), (brandName b, majorStr)] ∧
    (permute3 n [greasePair n, ("Chromium", majorStr),
      (brandName b, majorStr)]).length = 3 := by
  have hperm := permute3_perm n (greasePair n) ("Chromium", majorStr)
    (brandName b, majorStr)
  exact ⟨rfl, hperm, hperm.length_eq.trans rfl⟩

/-- C3 counterexample: a caller who has set the user-agent header to the
empty string does not keep that value; RoundTrip treats the empty value as
absent and overwrites it with the default. -/
theorem roundTrip_overrides_empty_caller_value :
    hLookup [("User-Agent", [""])] "User-Agent" = some [""] ∧
    hLookup (roundTripHeader ⟨[":method"], [("User-Agent", ["UA-D"])]⟩ (fun _ => 0)
      [("User-Agent", [""])]) "User-Agent" = some ["UA-D"] := by
  decide

/-- C3 amended: each default header is set only when the request lacks a
non-empty value for the name; a header entry whose first value is non-empty
always keeps the caller value, while a caller-set empty value counts as absent
and is overwritten by the default. -/
theorem roundTrip_defaults_fill_gaps (po : List String) (defaults : Header)
    (rnd : Nat → Nat) (h : Header) (k : String) (vs : List String)
    (hmem : (k, vs) ∈ defaults)
    (hnd : (defaults.map (fun kv => canonicalKey kv.1)).Nodup)
    (hkp : canonicalKey k ≠ PHeaderOrderKey)
    (hko : canonicalKey k ≠ HeaderOrderKey) :
    (hGetStr h k ≠ "" →
      hLookup (roundTripHeader ⟨po, defaults⟩ rnd h) (canonicalKey k) =
        hLookup h (canonicalKey k)) ∧
    (∀ v tl, vs = v :: tl → hGetStr h k = "" →
      hLookup (roundTripHeader ⟨po, defaults⟩ rnd h) (canonicalKey k) = some [v]) := by
  have hps : hLookup (applyPseudo po h) (canonicalKey k) = hLookup h (canonicalKey k) :=
    hStore_lookup_ne h PHeaderOrderKey (canonicalKey k) po hkp
  have hget : hGetStr (applyPseudo po h) k = hGetStr h k := hGetStr_congr _ _ k hps
  have hmain := injectDefaults_lookup_mem k vs defaults (applyPseudo po h) hmem hnd
  rw [hget, hps] at hmain
  have hio : hLookup (roundTripHeader ⟨po, defaults⟩ rnd h) (canonicalKey k) =
      hLookup (injectDefaults defaults (applyPseudo po h)) (canonicalKey k) :=
    installOrder_lookup_ne rnd _ _ hko
  constructor
  · intro hne
    rw [hio, hmain, if_neg hne]
  · intro v tl hvs hempty
    subst hvs
    rw [hio, hmain, if_pos hempty, if_neg (List.cons_ne_nil v tl)]
    rfl

/-- Witness for C3 amended: one default filling a gap on a request that lacks
the header. -/
theorem roundTrip_defaults_fill_gaps_witness :
    hLookup (roundTripHeader ⟨[":method"], [("User-Agent", ["ua0"])]⟩ (fun _ => 0)
      [("Accept", ["x"])]) (canonicalKey "User-Agent") = some ["ua0"] :=
  (roundTrip_defaults_fill_gaps [":method"] [("User-Agent", ["ua0"])] (fun _ => 0)
    [("Accept", ["x"])] "User-Agent" ["ua0"] (by decide) (by decide) (by decide)
    (by decide)).2 "ua0" [] rfl (by decide)

/-- C4: on a request with no caller-set header-order list, RoundTrip installs
under the header-order key a list that is a duplicate-free permutation of the
key set present after pseudo-order installation and default-header injection,
leaves every other key untouched, and across repeated calls (any other random
oracle) the installed lists are permutations of one another. -/
theorem roundTrip_header_order (po : List String) (defaults : Header)
    (rnd : Nat → Nat) (h : Header)
    (hH : hLookup h HeaderOrderKey = none)
    (hd : ∀ kv ∈ defaults, canonicalKey kv.1 ≠ HeaderOrderKey)
    (hnd : (hKeys h).Nodup) :
    ∃ ord,
      hLookup (roundTripHeader ⟨po, defaults⟩ rnd h) HeaderOrderKey = some ord ∧
      ord.Perm (hKeys (injectDefaults defaults (applyPseudo po h))) ∧
      ord.Nodup ∧
      (∀ k, k ≠ HeaderOrderKey →
        hLookup (roundTripHeader ⟨po, defaults⟩ rnd h) k =
          hLookup (injectDefaults defaults (applyPseudo po h)) k) ∧
      (∀ rnd2 : Nat → Nat, ∃ ord2,
        hLookup (roundTripHeader ⟨po, defaults⟩ rnd2 h) HeaderOrderKey = some ord2 ∧
        ord2.Perm ord) := by
  have h1H : hLookup (applyPseudo po h) HeaderOrderKey = none := by
    unfold applyPseudo
    rw [hStore_lookup_ne h PHeaderOrderKey HeaderOrderKey po (by decide)]
    exact hH
  have h2H : hLookup (injectDefaults defaults (applyPseudo po h)) HeaderOrderKey =
      none := by
    rw [injectDefaults_lookup_ne defaults _ _ hd]
    exact h1H
  have h2nd : (hKeys (injectDefaults defaults (applyPseudo po h))).Nodup :=
    injectDefaults_keys_nodup defaults _ (hKeys_hStore_nodup h PHeaderOrderKey po hnd)
  have hlook : ∀ rnd3 : Nat → Nat,
      hLookup (roundTripHeader ⟨po, defaults⟩ rnd3 h) HeaderOrderKey =
        some (shuffle rnd3 (hKeys (injectDefaults defaults (applyPseudo po h)))) := by
    intro rnd3
    show hLookup (installOrder rnd3 (injectDefaults defaults (applyPseudo po h)))
      HeaderOrderKey = _
    unfold installOrder
    rw [h2H]
    exact hStore_lookup_self _ HeaderOrderKey _
  refine ⟨shuffle rnd (hKeys (injectDefaults defaults (applyPseudo po h))),
    hlook rnd, shuffle_perm rnd _, ((shuffle_perm rnd _).nodup_iff).mpr h2nd,
    fun k hk => installOrder_lookup_ne rnd _ k hk,
    fun rnd2 => ⟨shuffle rnd2 _, hlook rnd2,
      (shuffle_perm rnd2 _).trans (shuffle_perm rnd _).symm⟩⟩

/-- Witness for C4: a concrete request with one caller header, one default and
the constant-zero oracle. -/
theorem roundTrip_header_order_witness :
    ∃ ord,
      hLookup (roundTripHeader ⟨[":method"], [("User-Agent", ["ua0"])]⟩ (fun _ => 0)
        [("Accept", ["x"])]) HeaderOrderKey = some ord ∧
      ord.Perm (hKeys (injectDefaults [("User-Agent", ["ua0"])]
        (applyPseudo [":method"] [("Accept", ["x"])]))) ∧
      ord.Nodup ∧
      (∀ k, k ≠ HeaderOrderKey →
        hLookup (roundTripHeader ⟨[":method"], [("User-Agent", ["ua0"])]⟩ (fun _ => 0)
          [("Accept", ["x"])]) k =
          hLookup (injectDefaults [("User-Agent", ["ua0"])]
            (applyPseudo [":method"] [("Accept", ["x"])])) k) ∧
      (∀ rnd2 : Nat → Nat, ∃ ord2,
        hLookup (roundTripHeader ⟨[":method"], [("User-Agent", ["ua0"])]⟩ rnd2
          [("Accept", ["x"])]) HeaderOrderKey = some ord2 ∧
        ord2.Perm ord) :=
  roundTrip_header_order [":method"] [("User-Agent", ["ua0"])] (fun _ => 0)
    [("Accept", ["x"])] (by decide) (by decide) (by decide)

end Mimic
